import Mathlib

/-
Verification of the AI-provider gateway (backAnd/api/ai_providers.py) against
its natural-language specification.

Shallow embedding conventions:
  * Python strings are Lean `String`s (length = number of characters, as in Python).
  * Network interaction of one call is an explicit environment value: an
    `HttpOutcome` describes what one `requests` call did (raised, or returned a
    status and a body).  Vendor wire bodies are abstracted to exactly the case
    analysis that the Python code performs on them (which JSON fields were
    present, whether decoding raised), one inductive per vendor framing.
  * A Python function whose body contains `yield` is a *generator function*:
    calling it returns a generator object without running the body.  Such a
    call is embedded as `PyVal.gen yielded ret`, where `yielded` is the list of
    values the body yields when iterated and `ret` is the value of the
    `return` statement ending the body (delivered as `StopIteration.value`,
    invisible to a `for` loop), or `PyVal.exn e` when the body raises.
    This is central: in the source, `AIService.generate_completion` and every
    vendor provider's `generate_completion` contain `yield` and are therefore
    generator functions, even when called with `stream=False`.
  * Mutation of a caller-supplied list (`providers.remove(...)` inside
    `AITeam.collaborate`) is embedded as explicit state passing: the final
    state of the aliased list is part of the result (`CollabOut.finalProviders`).
  * `temperature` is carried as a `Rat`; it is passed through and never
    inspected by any control flow being verified.
-/

namespace DevOpsAI

/-- The dictionary passed to `json.dumps` when a provider yields one streaming
event: the canonical event fields `response`, `done`, `model`, `error`, each
possibly absent. -/
structure EventJson where
  response : Option String := none
  done : Option Bool := none
  model : Option String := none
  error : Option String := none
deriving DecidableEq, Repr

/-- Python exceptions that the embedded code can raise. -/
inductive PyErr where
  | typeError (msg : String)
  | valueError (msg : String)
  | keyError (msg : String)
deriving DecidableEq, Repr

/-- A Python value produced by the embedded calls: a string, `None`, a
generator object (with the events its body yields when iterated and the value
of the `return` ending the body), or an uncaught exception that iterating the
body raises. -/
inductive PyVal where
  | str (s : String)
  | pyNone
  | gen (yielded : List EventJson) (ret : PyVal)
  | exn (e : PyErr)
deriving DecidableEq, Repr

/-- Whether a Python value is a string (`isinstance(v, str)`). -/
def PyVal.isStr : PyVal → Bool
  | .str _ => true
  | _ => false

/-- The events a `for` loop over a generator object consumes; any other value
is not iterated by the code under study. -/
def PyVal.yieldedEvents : PyVal → List EventJson
  | .gen ys _ => ys
  | _ => []

/-- `len(v)` for a Python value: defined for strings, raises `TypeError` on a
generator object (`object of type 'generator' has no len()`). -/
def pyLenVal : PyVal → Except PyErr Nat
  | .str s => .ok s.length
  | _ => .error (.typeError "object has no len()")

/-- Outcome of one `requests` call: the library raised, or a response with a
status code and a body (already shaped by the per-vendor abstraction). -/
inductive HttpOutcome (α : Type) where
  | exn (msg : String)
  | resp (status : Nat) (body : α)

/-- What the non-streaming answer-extraction code observed in a 200 body:
decoding/key access raised (`malformed`), or the answer text was extracted
(`ok`). -/
inductive ExtractBody where
  | malformed (msg : String)
  | ok (text : String)

/-- Truthiness of an optional Python string (`if not s`). -/
def pyTruthyStr : Option String → Bool
  | none => false
  | some s => !(s == "")

/-- Truthiness of an optional Python list (`if not l`): `None` and `[]` are
both falsy. -/
def pyTruthyList {α : Type} : Option (List α) → Bool
  | none => false
  | some l => !l.isEmpty

/-- Python `str.lower()` restricted to the alphabets the keyword tests use:
ASCII letters and the Russian alphabet (`А`-`Я` and `Ё`). -/
def pyLowerChar (c : Char) : Char :=
  if 65 ≤ c.toNat && c.toNat ≤ 90 then Char.ofNat (c.toNat + 32)
  else if 0x410 ≤ c.toNat && c.toNat ≤ 0x42F then Char.ofNat (c.toNat + 0x20)
  else if c.toNat == 0x401 then Char.ofNat 0x451
  else c

/-- Python `s.lower()` (written over the character list so that it evaluates
by kernel reduction). -/
def pyLower (s : String) : String := ⟨s.toList.map pyLowerChar⟩

/-- Python substring test `needle in hay`. -/
def strContains (hay needle : String) : Bool :=
  (List.range (hay.toList.length + 1)).any
    (fun i => needle.toList.isPrefixOf (hay.toList.drop i))

/-- The whitespace class of Python's `str.strip()` and of the regex `\s`. -/
def pyIsSpace (c : Char) : Bool :=
  c == ' ' || c == '\t' || c == '\n' || c == '\r' || c.toNat == 11 || c.toNat == 12

/-- Python `s.strip()`. -/
def pyStrip (cs : List Char) : List Char :=
  ((cs.dropWhile pyIsSpace).reverse.dropWhile pyIsSpace).reverse

/-- Split a character list at the first occurrence of `pat`: the part before
the occurrence and the part after it; `none` when `pat` does not occur. -/
def splitAtFirst (pat : List Char) : List Char → Option (List Char × List Char)
  | [] => if pat.isEmpty then some ([], []) else none
  | c :: rest =>
    if pat.isPrefixOf (c :: rest) then some ([], (c :: rest).drop pat.length)
    else (splitAtFirst pat rest).map (fun p => (c :: p.1, p.2))

/-- The string-slicing loop shared by `FallbackProvider._stream_fallback` and
the HuggingFace streaming emulation:
`[response[i:i + cs] for i in range(0, len(response), cs)]`.
Written with explicit fuel so that it evaluates by kernel reduction; the
wrapper below supplies `l.length` fuel, which is exact for every `cs > 0`
(each step consumes at least one character), and `cs = 0` never occurs in
the source (the chunk size is `max(5, …)`). -/
def chunksGo (cs : Nat) : Nat → List Char → List (List Char)
  | 0, _ => []
  | _ + 1, [] => []
  | fuel + 1, l@(_ :: _) => l.take cs :: chunksGo cs fuel (l.drop cs)

/-- All `cs`-sized chunks of a string, last one possibly shorter. -/
def chunksOfStr (cs : Nat) (s : String) : List String :=
  (chunksGo cs s.toList.length s.toList).map (fun l => ⟨l⟩)

/-- The event stream that the chunk-emitting loop yields: one event per chunk,
`done` set to `i == len(chunks) - 1` (source lines 391-396 and 1210-1215). -/
def chunkEvents (modelName : String) (response : String) : List EventJson :=
  let cs := max 5 (response.length / 10)
  let chunks := chunksOfStr cs response
  chunks.enum.map (fun p =>
    { model := some modelName, response := some p.2,
      done := some (p.1 == chunks.length - 1) })

/-- Canned text returned by FallbackProvider (source: ai_providers.py, _generate_unix_response). -/
def unixResponseText : String :=
  "# UNIX/Linux системы - основные команды\n\n- `ls` - просмотр содержимого директории\n- `cd` - смена директории\n- `pwd` - показать текущую директорию\n- `mkdir` - создание директории\n- `rm` - удаление файлов\n- `cp` - копирование файлов\n- `mv` - перемещение/переименование файлов\n- `cat` - вывод содержимого файла\n- `grep` - поиск текста в файлах\n- `find` - поиск файлов\n- `chmod` - изменение прав доступа\n- `chown` - изменение владельца файла\n- `sudo` - выполнение команд с привилегиями администратора\n- `apt/yum/dnf` - управление пакетами\n\nДля получения справки по команде используйте: `man имя_команды`"

/-- Canned text returned by FallbackProvider (source: ai_providers.py, _generate_network_response). -/
def torResponseText : String :=
  "# Настройка Tor (луковичный протокол) VPN\n\nTor (The Onion Router) - это программное обеспечение для анонимной коммуникации. Вот как настроить \"луковичный\" VPN:\n\n## 1. Установка Tor\n```bash\n# Debian/Ubuntu\nsudo apt update\nsudo apt install tor\n\n# Fedora\nsudo dnf install tor\n\n# Arch Linux\nsudo pacman -S tor\n```\n\n## 2. Настройка Tor как SOCKS-прокси\nОтредактируйте файл `/etc/tor/torrc`:\n```bash\nsudo nano /etc/tor/torrc\n```\n\nДобавьте или раскомментируйте строки:\n```\nSOCKSPort 9050\nControlPort 9051\n```\n\n## 3. Запуск сервиса Tor\n```bash\nsudo systemctl start tor\nsudo systemctl enable tor\n```\n\n## 4. Настройка системы для использования Tor\n### Проверка:\n```bash\ncurl --socks5 127.0.0.1:9050 https://check.torproject.org/api/ip\n```\n\n### Для прозрачного перенаправления всего трафика:\nУстановите пакет `torsocks`:\n```bash\nsudo apt install torsocks  # Debian/Ubuntu\n```\n\nИспользование:\n```bash\ntorsocks имя_программы\n# или\ntorify имя_программы\n```\n\n## 5. Дополнительно (луковые сервисы)\nДля создания скрытого сервиса, добавьте в `/etc/tor/torrc`:\n```\nHiddenServiceDir /var/lib/tor/hidden_service/\nHiddenServicePort 80 127.0.0.1:8080\n```\n\nПерезапустите Tor, и адрес .onion будет доступен в файле:\n```bash\nsudo cat /var/lib/tor/hidden_service/hostname\n```"

/-- Canned text returned by FallbackProvider (source: ai_providers.py, _generate_network_response). -/
def netCommandsText : String :=
  "# Основные сетевые команды в UNIX/Linux\n\n- `ip a` или `ifconfig` - показать сетевые интерфейсы\n- `ip r` или `route` - показать таблицу маршрутизации\n- `ping адрес` - проверка доступности хоста\n- `traceroute адрес` - трассировка маршрута\n- `netstat -tuln` - открытые порты/соединения\n- `ss -tuln` - открытые порты (современный аналог netstat)\n- `nmap` - сканирование портов и сервисов\n- `dig` или `nslookup` - запросы DNS\n- `curl` или `wget` - запросы HTTP\n- `iptables` - настройка файрвола (legacy)\n- `nftables` или `firewalld` - современные файрволы\n- `tcpdump` - перехват и анализ сетевого трафика\n- `ssh пользователь@хост` - безопасное подключение к удаленному хосту"

/-- Canned text returned by FallbackProvider (source: ai_providers.py, _generate_kubernetes_response). -/
def kubernetesResponseText : String :=
  "# Установка и запуск Kubernetes\n\n## Первичная настройка на Ubuntu/Debian\n```bash\n# Обновление системы\nsudo apt update && sudo apt upgrade -y\n\n# Установка Docker\nsudo apt install -y docker.io\nsudo systemctl enable docker\nsudo systemctl start docker\n\n# Установка kubectl\ncurl -LO \"https://dl.k8s.io/release/$(curl -L -s https://dl.k8s.io/release/stable.txt)/bin/linux/amd64/kubectl\"\nsudo install -o root -g root -m 0755 kubectl /usr/local/bin/kubectl\n\n# Установка minikube для тестового кластера\ncurl -LO https://storage.googleapis.com/minikube/releases/latest/minikube-linux-amd64\nsudo install minikube-linux-amd64 /usr/local/bin/minikube\n\n# Запуск кластера\nminikube start\n```\n\n## Настройка полноценного кластера с kubeadm\n```bash\n# Отключение swap\nsudo swapoff -a\nsudo sed -i '/ swap / s/^\\(.*\\)$/#/g' /etc/fstab\n\n# Установка kubeadm, kubelet и kubectl\nsudo apt-get update && sudo apt-get install -y apt-transport-https curl\ncurl -s https://packages.cloud.google.com/apt/doc/apt-key.gpg | sudo apt-key add -\ncat <<EOF | sudo tee /etc/apt/sources.list.d/kubernetes.list\ndeb https://apt.kubernetes.io/ kubernetes-xenial main\nEOF\nsudo apt-get update\nsudo apt-get install -y kubelet kubeadm kubectl\nsudo apt-mark hold kubelet kubeadm kubectl\n\n# Инициализация мастер-узла\nsudo kubeadm init --pod-network-cidr=10.244.0.0/16\n\n# Настройка kubectl для текущего пользователя\nmkdir -p $HOME/.kube\nsudo cp -i /etc/kubernetes/admin.conf $HOME/.kube/config\nsudo chown $(id -u):$(id -g) $HOME/.kube/config\n\n# Установка сетевого плагина (Flannel)\nkubectl apply -f https://raw.githubusercontent.com/coreos/flannel/master/Documentation/kube-flannel.yml\n```\n\n## Проверка работы кластера\n```bash\nkubectl get nodes\nkubectl get pods --all-namespaces\n```"

/-- Canned text returned by FallbackProvider (source: ai_providers.py, _generate_general_response). -/
def generalResponseText : String :=
  "# DevOps Справочник\n\nЗдравствуйте! Я могу предоставить информацию по следующим темам:\n\n## Linux/Unix системы\n- Установка и настройка пакетов\n- Управление пользователями и правами доступа\n- Управление процессами и сервисами\n- Файловые системы и диски\n\n## Сети и VPN\n- Настройка сетевых интерфейсов\n- Маршрутизация и файрволы\n- VPN (OpenVPN, WireGuard)\n- Tor (\"луковичный\" протокол)\n\n## Контейнеризация\n- Docker\n- Docker Compose\n- Основы управления контейнерами\n\n## Оркестрация\n- Kubernetes (установка, настройка, управление)\n- Helm\n- Базовые манифесты и деплои\n\n## CI/CD\n- Настройка пайплайнов\n- Github Actions\n- Jenkins\n- GitLab CI\n\nЗадайте конкретный вопрос по одной из этих тем, и я предоставлю более детальную информацию."


/-- The fence token of the first regex in `_get_fallback_response`. -/
def fenceTok : List Char := "```".toList

/-- The triple-quote token of the second regex in `_get_fallback_response`. -/
def tripleQuoteTok : List Char := "'''".toList

/-- The optional language tags of the fence regex
`(?:nginx|apache|conf|config)?`, in the alternation's order (so `conf` wins
over `config`, exactly as the regex engine matches). -/
def fenceTags : List String := ["nginx", "apache", "conf", "config"]

/-- Consume the optional language tag after an opening fence. -/
def skipFenceTag (cs : List Char) : List Char :=
  match fenceTags.find? (fun t => t.toList.isPrefixOf cs) with
  | some t => cs.drop t.length
  | none => cs

/-- Leftmost match of the fence regex of `_get_fallback_response` (an opening
triple backtick, an optional tag, whitespace, then a lazy capture up to a
closing triple backtick): at the first opening fence that is followed, after
the optional tag and whitespace, by a closing fence, capture up to that
closing fence.  Consuming or not consuming the tag cannot create or destroy a
closing fence (tags are letters), so regex backtracking over the tag
alternation reduces to this first-fit scan. -/
def fenceSearch : List Char → Option (List Char)
  | [] => none
  | cs@(_ :: tail) =>
    if fenceTok.isPrefixOf cs then
      let body := (skipFenceTag (cs.drop 3)).dropWhile pyIsSpace
      match splitAtFirst fenceTok body with
      | some (captured, _) => some captured
      | none => fenceSearch tail
    else fenceSearch tail

/-- Leftmost match of the second, triple-apostrophe regex of
`_get_fallback_response` (lazy capture between two triple-quote tokens). -/
def tripleQuoteSearch : List Char → Option (List Char)
  | [] => none
  | cs@(_ :: tail) =>
    if tripleQuoteTok.isPrefixOf cs then
      match splitAtFirst tripleQuoteTok (cs.drop 3) with
      | some (captured, _) => some captured
      | none => tripleQuoteSearch tail
    else tripleQuoteSearch tail

/-- The analysis-request test of `_get_fallback_response` (without the module
truthiness test): the prompt, lowercased, asks for a check/analysis and
mentions a config. -/
def analysisRequested (pl : String) : Bool :=
  (strContains pl "проверь" || strContains pl "проанализируй") &&
    (strContains pl "конфиг" || strContains pl "конфигурацию")

/-- `FallbackProvider._generate_network_response`: the Tor variant when the
lowercased prompt mentions tor or the onion keyword, else the generic
network-commands text. -/
def networkResponse (prompt : String) : String :=
  if strContains (pyLower prompt) "tor" || strContains (pyLower prompt) "луковичный" then
    torResponseText
  else netCommandsText

/-- The topic-keyword dispatch at the tail of `_get_fallback_response`
(source lines 372-379), stated on its own for the fall-through theorem. -/
def topicResponse (prompt : String) : String :=
  let pl := pyLower prompt
  if strContains pl "unix" || strContains pl "linux" then unixResponseText
  else if strContains pl "vpn" || strContains pl "tor" || strContains pl "лукови" then
    networkResponse prompt
  else if strContains pl "kubernetes" || strContains pl "k8s" then kubernetesResponseText
  else generalResponseText

/-- `FallbackProvider._get_fallback_response`.  `analyzer` is the injected
`config_analyzer_module` dependency (the external config auditor, outside the
core per the spec): `analyzer text typeHint` is `analyze_config_file(text,
typeHint)`; `none` models a falsy module.  When the analysis condition holds,
the config type hint is inferred, a fenced block is extracted by the two
regexes, and the auditor's report is returned; when no fenced block is found,
or the condition fails, control falls through to the topic-keyword dispatch. -/
def getFallbackResponse (analyzer : Option (String → Option String → String))
    (prompt : String) : String :=
  let pl := pyLower prompt
  let analyzed : Option String :=
    if analyzer.isSome && analysisRequested pl then
      let configType : Option String :=
        if strContains pl "nginx" then some "nginx"
        else if strContains pl "apache" then some "apache"
        else none
      let captured : Option (List Char) :=
        match fenceSearch prompt.toList with
        | some c => some c
        | none => tripleQuoteSearch prompt.toList
      match captured, analyzer with
      | some c, some analyze => some (analyze ⟨pyStrip c⟩ configType)
      | _, _ => none
    else none
  match analyzed with
  | some report => report
  | none =>
    if strContains pl "unix" || strContains pl "linux" then unixResponseText
    else if strContains pl "vpn" || strContains pl "tor" || strContains pl "лукови" then
      networkResponse prompt
    else if strContains pl "kubernetes" || strContains pl "k8s" then kubernetesResponseText
    else generalResponseText

/-- `FallbackProvider._stream_fallback(response)`: the generator object it
returns, with the events its body yields (model field is the fixed string
fallback). -/
def fallbackStream (response : String) : PyVal :=
  .gen (chunkEvents "fallback" response) .pyNone

/-- `FallbackProvider.generate_completion`.  This method contains no `yield`,
so (unlike every vendor provider) it really returns the full response string
when `stream` is false, and the `_stream_fallback` generator object when
`stream` is true. -/
def fallbackGenerate (analyzer : Option (String → Option String → String))
    (model prompt : String) (temperature : Rat) (stream : Bool) : PyVal :=
  let response := getFallbackResponse analyzer prompt
  if stream then fallbackStream response else .str response

/-- One entry of a provider's `list_models()` result; only `name` is ever
read by the code under study, the second field carries the rest of the dict. -/
structure ModelInfo where
  name : String
  description : String := ""
deriving DecidableEq, Repr

/-- `FallbackProvider.list_models()`: the fixed catalogue. -/
def fallbackModels : List ModelInfo :=
  [⟨"fallback-unix", "Модель для ответов на вопросы о UNIX-системах"⟩,
   ⟨"fallback-network", "Модель для ответов на вопросы о сетях и VPN"⟩,
   ⟨"fallback-kubernetes", "Модель для ответов на вопросы о Kubernetes"⟩,
   ⟨"fallback-analyzer", "Модель для анализа конфигурационных файлов"⟩]


/-- One line delivered by `response.iter_lines()` in `OllamaProvider`'s
streaming loop, abstracted to the case analysis the loop performs: a falsy
line (skipped), a line `json.loads` fails on (one error event, continue), a
parsed vendor chunk (restricted to the canonical fields the code reads and
re-emits), or the iterator itself raising mid-stream (caught by the outer
`except`, which yields one error event and ends the generator). -/
inductive OllamaLine where
  | empty
  | bad
  | chunk (c : EventJson)
  | iterFail (msg : String)

/-- `OllamaProvider.generate_completion`'s streaming loop (source lines
117-125): re-emit each parsed chunk, break after a chunk whose `done` field is
truthy (`chunk.get("done", False)`), one fixed error event per undecodable
line. -/
def ollamaStreamLoop : List OllamaLine → List EventJson
  | [] => []
  | .empty :: rest => ollamaStreamLoop rest
  | .bad :: rest => { error := some "Invalid JSON in response" } :: ollamaStreamLoop rest
  | .chunk c :: rest =>
    if c.done.getD false then [c] else c :: ollamaStreamLoop rest
  | .iterFail msg :: _ => [{ error := some msg }]

/-- The network environment of one `OllamaProvider.generate_completion` call:
what the POST to `/api/generate` would do in non-streaming and in streaming
mode.  For Ollama's non-streaming extraction `response.json().get('response',
'')`, `ExtractBody.ok t` covers both a present field (`t`) and an absent one
(`t = ""`, since `.get` defaults), and `malformed` a `.json()` failure. -/
structure OllamaEnv where
  plainHttp : HttpOutcome ExtractBody
  streamHttp : HttpOutcome (List OllamaLine)

/-- The run of `OllamaProvider.generate_completion`'s body: the events it
yields and the value its `return` delivers (source lines 74-131). -/
def ollamaGenerateBody (stream : Bool) (env : OllamaEnv) : List EventJson × PyVal :=
  if stream then
    match env.streamHttp with
    | .exn msg => ([{ error := some msg }], .pyNone)
    | .resp status lines =>
      if status == 200 then (ollamaStreamLoop lines, .pyNone)
      else ([{ error := some "Failed to connect to Ollama API" }], .pyNone)
  else
    match env.plainHttp with
    | .exn msg => ([], .str ("Error: " ++ msg))
    | .resp status body =>
      if status == 200 then
        match body with
        | .malformed msg => ([], .str ("Error: " ++ msg))
        | .ok text => ([], .str text)
      else ([], .str "")

/-- Calling `OllamaProvider.generate_completion`: the body contains `yield`,
so the call returns a generator object for either value of `stream`. -/
def ollamaGenerate (model prompt : String) (temperature : Rat) (stream : Bool)
    (env : OllamaEnv) : PyVal :=
  .gen (ollamaGenerateBody stream env).1 (ollamaGenerateBody stream env).2

/-- One line of `OpenAIProvider`'s streaming loop, abstracted to its case
analysis: falsy line; a line without the `data: ` prefix (skipped); the
`data: [DONE]` sentinel; a parsed delta object with or without a `content`
key; a line whose decode/parse/key access raised (one error event, continue);
or the iterator raising (outer `except`: one error event, end). -/
inductive OpenAILine where
  | empty
  | noData
  | doneMark
  | delta (content : Option String)
  | bad (msg : String)
  | iterFail (msg : String)

/-- `OpenAIProvider.generate_completion`'s streaming loop (source lines
256-285): emit a done event and break on `[DONE]`, one content event per
delta carrying `content`, one error event per failed line. -/
def openaiStreamLoop (model : String) : List OpenAILine → List EventJson
  | [] => []
  | .empty :: rest => openaiStreamLoop model rest
  | .noData :: rest => openaiStreamLoop model rest
  | .doneMark :: _ => [{ done := some true, response := some "", model := some model }]
  | .delta none :: rest => openaiStreamLoop model rest
  | .delta (some contentChunk) :: rest =>
    { response := some contentChunk, done := some false, model := some model }
      :: openaiStreamLoop model rest
  | .bad msg :: rest =>
    { error := some ("Error parsing stream: " ++ msg) } :: openaiStreamLoop model rest
  | .iterFail msg :: _ => [{ error := some msg }]

/-- The network environment of one `OpenAIProvider.generate_completion` call. -/
structure OpenAIEnv where
  plainHttp : HttpOutcome ExtractBody
  streamHttp : HttpOutcome (List OpenAILine)

/-- The run of `OpenAIProvider.generate_completion`'s body (source lines
194-291), including the missing-credential short-circuit. -/
def openaiGenerateBody (apiKey : Option String) (model : String) (stream : Bool)
    (env : OpenAIEnv) : List EventJson × PyVal :=
  if !pyTruthyStr apiKey then
    let errorMsg := "OpenAI API key not provided. Cannot generate completion."
    if stream then ([{ error := some errorMsg }], .pyNone) else ([], .str errorMsg)
  else if stream then
    match env.streamHttp with
    | .exn msg => ([{ error := some msg }], .pyNone)
    | .resp status lines =>
      if status == 200 then (openaiStreamLoop model lines, .pyNone)
      else ([{ error := some "Failed to connect to OpenAI API" }], .pyNone)
  else
    match env.plainHttp with
    | .exn msg => ([], .str ("Error: " ++ msg))
    | .resp status body =>
      if status == 200 then
        match body with
        | .malformed msg => ([], .str ("Error: " ++ msg))
        | .ok text => ([], .str text)
      else ([], .str "")

/-- Calling `OpenAIProvider.generate_completion`: a generator function. -/
def openaiGenerate (apiKey : Option String) (model prompt : String)
    (temperature : Rat) (stream : Bool) (env : OpenAIEnv) : PyVal :=
  .gen (openaiGenerateBody apiKey model stream env).1 (openaiGenerateBody apiKey model stream env).2

/-- One line of `AnthropicProvider`'s streaming loop: as for OpenAI, but a
payload may carry both extractable content (`content[0].text`) and a
`type == "message_stop"` marker; `content` is `none` when the key is absent
or the list empty (no event, the stop marker is still checked). -/
inductive AnthropicLine where
  | empty
  | noData
  | doneMark
  | payload (content : Option String) (messageStop : Bool)
  | bad (msg : String)
  | iterFail (msg : String)

/-- `AnthropicProvider.generate_completion`'s streaming loop (source lines
733-766): `[DONE]` or a `message_stop` payload emits the done event and
breaks; a payload's content event (if any) is emitted before its stop is
checked. -/
def anthropicStreamLoop (model : String) : List AnthropicLine → List EventJson
  | [] => []
  | .empty :: rest => anthropicStreamLoop model rest
  | .noData :: rest => anthropicStreamLoop model rest
  | .doneMark :: _ => [{ done := some true, response := some "", model := some model }]
  | .payload content messageStop :: rest =>
    let contentEvents :=
      match content with
      | some contentChunk =>
        [{ response := some contentChunk, done := some false, model := some model }]
      | none => []
    if messageStop then
      contentEvents ++ [{ done := some true, response := some "", model := some model }]
    else contentEvents ++ anthropicStreamLoop model rest
  | .bad msg :: rest =>
    { error := some ("Error parsing stream: " ++ msg) } :: anthropicStreamLoop model rest
  | .iterFail msg :: _ => [{ error := some msg }]

/-- The network environment of one `AnthropicProvider.generate_completion` call. -/
structure AnthropicEnv where
  plainHttp : HttpOutcome ExtractBody
  streamHttp : HttpOutcome (List AnthropicLine)

/-- The run of `AnthropicProvider.generate_completion`'s body (source lines
671-772). -/
def anthropicGenerateBody (apiKey : Option String) (model : String) (stream : Bool)
    (env : AnthropicEnv) : List EventJson × PyVal :=
  if !pyTruthyStr apiKey then
    let errorMsg := "Anthropic API key not provided. Cannot generate completion."
    if stream then ([{ error := some errorMsg }], .pyNone) else ([], .str errorMsg)
  else if stream then
    match env.streamHttp with
    | .exn msg => ([{ error := some msg }], .pyNone)
    | .resp status lines =>
      if status == 200 then (anthropicStreamLoop model lines, .pyNone)
      else ([{ error := some "Failed to connect to Anthropic API" }], .pyNone)
  else
    match env.plainHttp with
    | .exn msg => ([], .str ("Error: " ++ msg))
    | .resp status body =>
      if status == 200 then
        match body with
        | .malformed msg => ([], .str ("Error: " ++ msg))
        | .ok text => ([], .str text)
      else ([], .str "")

/-- Calling `AnthropicProvider.generate_completion`: a generator function. -/
def anthropicGenerate (apiKey : Option String) (model prompt : String)
    (temperature : Rat) (stream : Bool) (env : AnthropicEnv) : PyVal :=
  .gen (anthropicGenerateBody apiKey model stream env).1
    (anthropicGenerateBody apiKey model stream env).2

/-- One line of `GeminiProvider`'s streaming loop: a payload's `text` is
`candidates[0].content.parts[0].text` when the nested keys are present,
`none` otherwise (no event). -/
inductive GeminiLine where
  | empty
  | noData
  | doneMark
  | payload (text : Option String)
  | bad (msg : String)
  | iterFail (msg : String)

/-- `GeminiProvider.generate_completion`'s streaming loop (source lines
891-919). -/
def geminiStreamLoop (model : String) : List GeminiLine → List EventJson
  | [] => []
  | .empty :: rest => geminiStreamLoop model rest
  | .noData :: rest => geminiStreamLoop model rest
  | .doneMark :: _ => [{ done := some true, response := some "", model := some model }]
  | .payload none :: rest => geminiStreamLoop model rest
  | .payload (some contentPart) :: rest =>
    { response := some contentPart, done := some false, model := some model }
      :: geminiStreamLoop model rest
  | .bad msg :: rest =>
    { error := some ("Error parsing stream: " ++ msg) } :: geminiStreamLoop model rest
  | .iterFail msg :: _ => [{ error := some msg }]

/-- The network environment of one `GeminiProvider.generate_completion` call. -/
structure GeminiEnv where
  plainHttp : HttpOutcome ExtractBody
  streamHttp : HttpOutcome (List GeminiLine)

/-- The run of `GeminiProvider.generate_completion`'s body (source lines
833-925). -/
def geminiGenerateBody (apiKey : Option String) (model : String) (stream : Bool)
    (env : GeminiEnv) : List EventJson × PyVal :=
  if !pyTruthyStr apiKey then
    let errorMsg := "Google Gemini API key not provided. Cannot generate completion."
    if stream then ([{ error := some errorMsg }], .pyNone) else ([], .str errorMsg)
  else if stream then
    match env.streamHttp with
    | .exn msg => ([{ error := some msg }], .pyNone)
    | .resp status lines =>
      if status == 200 then (geminiStreamLoop model lines, .pyNone)
      else ([{ error := some "Failed to connect to Google Gemini API" }], .pyNone)
  else
    match env.plainHttp with
    | .exn msg => ([], .str ("Error: " ++ msg))
    | .resp status body =>
      if status == 200 then
        match body with
        | .malformed msg => ([], .str ("Error: " ++ msg))
        | .ok text => ([], .str text)
      else ([], .str "")

/-- Calling `GeminiProvider.generate_completion`: a generator function. -/
def geminiGenerate (apiKey : Option String) (model prompt : String)
    (temperature : Rat) (stream : Bool) (env : GeminiEnv) : PyVal :=
  .gen (geminiGenerateBody apiKey model stream env).1
    (geminiGenerateBody apiKey model stream env).2

/-- One line of `AzureOpenAIProvider`'s streaming loop: a payload's `content`
is `choices[0].delta.content` when the keys are present (`choices` nonempty,
`delta` defaulting to an empty dict), `none` otherwise. -/
inductive AzureLine where
  | empty
  | noData
  | doneMark
  | payload (content : Option String)
  | bad (msg : String)
  | iterFail (msg : String)

/-- `AzureOpenAIProvider.generate_completion`'s streaming loop (source lines
1061-1091). -/
def azureStreamLoop (model : String) : List AzureLine → List EventJson
  | [] => []
  | .empty :: rest => azureStreamLoop model rest
  | .noData :: rest => azureStreamLoop model rest
  | .doneMark :: _ => [{ done := some true, response := some "", model := some model }]
  | .payload none :: rest => azureStreamLoop model rest
  | .payload (some contentChunk) :: rest =>
    { response := some contentChunk, done := some false, model := some model }
      :: azureStreamLoop model rest
  | .bad msg :: rest =>
    { error := some ("Error parsing stream: " ++ msg) } :: azureStreamLoop model rest
  | .iterFail msg :: _ => [{ error := some msg }]

/-- The network environment of one `AzureOpenAIProvider.generate_completion`
call. -/
structure AzureEnv where
  plainHttp : HttpOutcome ExtractBody
  streamHttp : HttpOutcome (List AzureLine)

/-- The run of `AzureOpenAIProvider.generate_completion`'s body (source lines
999-1097); the credential test is `if not self.api_key or not self.endpoint`. -/
def azureGenerateBody (apiKey endpoint : Option String) (model : String)
    (stream : Bool) (env : AzureEnv) : List EventJson × PyVal :=
  if !pyTruthyStr apiKey || !pyTruthyStr endpoint then
    let errorMsg := "Azure OpenAI credentials not provided. Cannot generate completion."
    if stream then ([{ error := some errorMsg }], .pyNone) else ([], .str errorMsg)
  else if stream then
    match env.streamHttp with
    | .exn msg => ([{ error := some msg }], .pyNone)
    | .resp status lines =>
      if status == 200 then (azureStreamLoop model lines, .pyNone)
      else ([{ error := some "Failed to connect to Azure OpenAI API" }], .pyNone)
  else
    match env.plainHttp with
    | .exn msg => ([], .str ("Error: " ++ msg))
    | .resp status body =>
      if status == 200 then
        match body with
        | .malformed msg => ([], .str ("Error: " ++ msg))
        | .ok text => ([], .str text)
      else ([], .str "")

/-- Calling `AzureOpenAIProvider.generate_completion`: a generator function. -/
def azureGenerate (apiKey endpoint : Option String) (model prompt : String)
    (temperature : Rat) (stream : Bool) (env : AzureEnv) : PyVal :=
  .gen (azureGenerateBody apiKey endpoint model stream env).1
    (azureGenerateBody apiKey endpoint model stream env).2

/-- What `HuggingFaceProvider` observed in its single POST's 200 body:
`response.json()` or the `[0]` index raised (`malformed`), or
`[0].get("generated_text", "")` produced a text (possibly empty, by the
`.get` default). -/
inductive HFBody where
  | malformed (msg : String)
  | ok (generatedText : String)

/-- The network environment of one `HuggingFaceProvider.generate_completion`
call: HuggingFace has no native streaming, so both modes issue the same
single POST. -/
structure HFEnv where
  http : HttpOutcome HFBody

/-- The run of `HuggingFaceProvider.generate_completion`'s body (source lines
1150-1243): in streaming mode the full response is fetched synchronously and
re-chunked by the same slicing loop as the fallback emulation, `done` true
only on the last chunk. -/
def hfGenerateBody (apiKey : Option String) (model : String) (stream : Bool)
    (env : HFEnv) : List EventJson × PyVal :=
  if !pyTruthyStr apiKey then
    let errorMsg := "Hugging Face API key not provided. Cannot generate completion."
    if stream then ([{ error := some errorMsg }], .pyNone) else ([], .str errorMsg)
  else if stream then
    match env.http with
    | .exn msg => ([{ error := some msg }], .pyNone)
    | .resp status body =>
      if status != 200 then
        ([{ error := some ("Failed to connect to Hugging Face API: " ++ toString status) }],
          .pyNone)
      else
        match body with
        | .malformed msg => ([{ error := some ("Error parsing response: " ++ msg) }], .pyNone)
        | .ok generatedText => (chunkEvents model generatedText, .pyNone)
  else
    match env.http with
    | .exn msg => ([], .str ("Error: " ++ msg))
    | .resp status body =>
      if status != 200 then ([], .str "")
      else
        match body with
        | .malformed msg => ([], .str ("Error: " ++ msg))
        | .ok generatedText => ([], .str generatedText)

/-- Calling `HuggingFaceProvider.generate_completion`: a generator function. -/
def hfGenerate (apiKey : Option String) (model prompt : String)
    (temperature : Rat) (stream : Bool) (env : HFEnv) : PyVal :=
  .gen (hfGenerateBody apiKey model stream env).1 (hfGenerateBody apiKey model stream env).2


/-- The observable behavior of one registered provider for the duration of one
Gateway call, abstracting the `AIProvider` interface the registry dispatches
through: the result of `check_connection()`, of `list_models()`, and of
`generate_completion(model, prompt, temperature, stream)`.  Concrete
instances are built from the per-vendor embeddings above or given directly in
the theorems. -/
structure ProviderSt where
  checkConn : Bool
  listModelsRes : List ModelInfo
  generate : String → String → Rat → Bool → PyVal

/-- `AIService`'s state after `_initialize_providers`: the fallback-enabled
flag, the default provider name, the providers registered before the final
`self.providers['fallback'] = FallbackProvider()` assignment (always `ollama`,
plus each cloud vendor whose credential is configured), and the config
auditor injected into that `FallbackProvider`. -/
structure AIServiceSt where
  useFallback : Bool
  defaultProvider : String
  others : List (String × ProviderSt)
  analyzer : String → Option String → String

/-- The registry entry `_initialize_providers` creates for `'fallback'`:
always reachable, the fixed catalogue, the concrete
`FallbackProvider.generate_completion`. -/
def fallbackProviderSt (analyzer : String → Option String → String) : ProviderSt :=
  { checkConn := true
    listModelsRes := fallbackModels
    generate := fun model prompt temperature stream =>
      fallbackGenerate (some analyzer) model prompt temperature stream }

/-- `self.providers` as an ordered association list (Python dict preserves
insertion order; `'fallback'` is inserted last and, in the real constructor,
never earlier). -/
def svcDict (svc : AIServiceSt) : List (String × ProviderSt) :=
  svc.others ++ [("fallback", fallbackProviderSt svc.analyzer)]

/-- `self.providers['fallback']`; the lookup always succeeds because the
fallback entry is appended by construction (the default is unreachable). -/
def svcFallback (svc : AIServiceSt) : ProviderSt :=
  ((svcDict svc).lookup "fallback").getD (fallbackProviderSt svc.analyzer)

/-- The provider-name resolution shared by `AIService.list_models` and
`AIService.generate_completion`: a falsy argument and an unknown name both
fall back to the default provider name (which is not itself re-checked). -/
def svcResolveName (svc : AIServiceSt) (provider? : Option String) : String :=
  let name := if pyTruthyStr provider? then provider?.getD "" else svc.defaultProvider
  if ((svcDict svc).lookup name).isSome then name else svc.defaultProvider

/-- `AIService.list_models` (source lines 1404-1438): delegate to the fallback
catalogue when the resolved provider is unreachable, or reachable with an
empty listing, and fallback is enabled; `KeyError` when even the default
provider name is unregistered. -/
def svcListModels (svc : AIServiceSt) (provider? : Option String) :
    Except PyErr (List ModelInfo) :=
  let name := svcResolveName svc provider?
  match (svcDict svc).lookup name with
  | none => .error (.keyError name)
  | some prov =>
    if !prov.checkConn then
      if svc.useFallback then .ok (svcFallback svc).listModelsRes else .ok []
    else
      let models := prov.listModelsRes
      if models.isEmpty && svc.useFallback then .ok (svcFallback svc).listModelsRes
      else .ok models

/-- The run of `AIService.generate_completion`'s body (source lines
1440-1474).  The body contains a `yield`, so the method is a generator
function; this is its body's run: when the resolved provider is unreachable
and fallback is enabled, the fallback provider's result is the value of a
`return` (hence only the generator's hidden `StopIteration` value); when
fallback is disabled, the streaming branch yields one error event and then
still evaluates `return ai_provider.generate_completion(...)`; the
non-streaming branch returns an `"Error: ..."` string.  A reachable provider's
result is likewise just returned. -/
def svcGenerateBody (svc : AIServiceSt) (model prompt : String) (temperature : Rat)
    (provider? : Option String) (stream : Bool) : List EventJson × PyVal :=
  let name := svcResolveName svc provider?
  match (svcDict svc).lookup name with
  | none => ([], .exn (.keyError name))
  | some prov =>
    if !prov.checkConn then
      if svc.useFallback then
        ([], (svcFallback svc).generate model prompt temperature stream)
      else if stream then
        ([{ error := some ("Provider '" ++ name ++ "' is not available and fallback is disabled.") }],
          prov.generate model prompt temperature stream)
      else
        ([], .str ("Error: Provider '" ++ name ++ "' is not available and fallback is disabled."))
    else ([], prov.generate model prompt temperature stream)

/-- Calling `AIService.generate_completion`: a generator function, so the call
returns a generator object for either value of `stream` — never a string. -/
def svcGenerate (svc : AIServiceSt) (model prompt : String) (temperature : Rat)
    (provider? : Option String) (stream : Bool) : PyVal :=
  .gen (svcGenerateBody svc model prompt temperature provider? stream).1
    (svcGenerateBody svc model prompt temperature provider? stream).2

/-- `[p for p in self.service.providers.keys() if
self.service.providers[p].check_connection()]`: the default provider
selection of `AITeam.collaborate`. -/
def connectedProviderNames (svc : AIServiceSt) : List String :=
  ((svcDict svc).map Prod.fst).filter
    (fun p => (((svcDict svc).lookup p).map ProviderSt.checkConn).getD false)

/-- Result of the model-selection loop: the final state of the (mutated)
providers list together with the accumulated models, or a propagated
exception paired with the providers list's state at that point. -/
inductive SelResult where
  | ok (providers models : List String)
  | err (e : PyErr) (providers : List String)
deriving DecidableEq

/-- The model-selection loop of `AITeam.collaborate` (source lines 1271-1280),
with Python's `for` semantics made explicit: the loop keeps an integer cursor
`i` into the *current* list, reads `providers[i]`, always advances the cursor,
and `providers.remove(provider)` deletes the first occurrence in place — so
the element that slides into position `i` after a removal is never visited.
Written with fuel so that it evaluates by kernel reduction; the initial
length is sufficient fuel because the cursor strictly increases and the list
never grows. -/
def selectModelsGo (svc : AIServiceSt) :
    Nat → Nat → List String → List String → SelResult
  | 0, _, providers, models => .ok providers models
  | fuel + 1, i, providers, models =>
    if h : i < providers.length then
      let provider := providers.get ⟨i, h⟩
      match svcListModels svc (some provider) with
      | .error e => .err e providers
      | .ok [] => selectModelsGo svc fuel (i + 1) (providers.erase provider) models
      | .ok (m :: _) => selectModelsGo svc fuel (i + 1) providers (models ++ [m.name])
    else .ok providers models

/-- The model-selection loop started on a caller-supplied providers list. -/
def selectModels (svc : AIServiceSt) (providers : List String) : SelResult :=
  selectModelsGo svc providers.length 0 providers []

/-- Provider/model resolution of `AITeam.collaborate` before the length-match
check: a falsy `providers` argument selects every connected registered
provider; a falsy `models` argument runs the selection loop. -/
def resolveSelections (svc : AIServiceSt)
    (providers? models? : Option (List String)) : SelResult :=
  let providers0 :=
    if pyTruthyList providers? then providers?.getD [] else connectedProviderNames svc
  if pyTruthyList models? then .ok providers0 (models?.getD [])
  else selectModels svc providers0

/-- One collected answer of the fan-out loop (`responses.append({...})`): the
`response` value is whatever `self.service.generate_completion(...)` returned
— always a generator object, since that method is a generator function. -/
structure TeamAnswer where
  provider : String
  model : String
  response : PyVal
deriving DecidableEq

/-- `str(v)` as used by the meta-prompt f-string; a generator object formats
as its `repr` (the memory address is elided as irrelevant). -/
def pyFormatVal : PyVal → String
  | .str s => s
  | .pyNone => "None"
  | .gen _ _ => "<generator object>"
  | .exn _ => "<exception>"

/-- The meta-prompt built by `AITeam.collaborate` (source lines 1304-1313). -/
def buildMetaPrompt (prompt : String) (answers : List TeamAnswer) : String :=
  let header := "Ты - метаанализатор, который объединяет и улучшает ответы от разных моделей ИИ.\nИсходный запрос: " ++ prompt ++ "\n\nОтветы от разных моделей:\n"
  let body := String.join ((answers.enum).map (fun p =>
    "\n### Модель " ++ toString (p.1 + 1) ++ " (" ++ p.2.provider ++ "/" ++ p.2.model ++ "):\n"
      ++ pyFormatVal p.2.response ++ "\n"))
  header ++ body ++ "\nСоздай единый, согласованный и улучшенный ответ, который использует лучшие части из каждого ответа."

/-- The fixed synthesizer priority list (source line 1316). -/
def metaProviders : List String :=
  ["openai", "anthropic", "azure_openai", "gemini", "ollama", "huggingface"]

/-- The synthesizer-selection loop (source lines 1317-1331): the first
priority-list provider that is registered, reachable, and whose
`service.list_models` result is nonempty, together with that result's first
model name. -/
def findSynth (svc : AIServiceSt) : List String → Except PyErr (Option (String × String))
  | [] => .ok none
  | p :: rest =>
    match (svcDict svc).lookup p with
    | none => findSynth svc rest
    | some st =>
      if st.checkConn then
        match svcListModels svc (some p) with
        | .error e => .error e
        | .ok [] => findSynth svc rest
        | .ok (m :: _) => .ok (some (p, m.name))
      else findSynth svc rest

/-- Python's `max(answers, key=lambda x: len(x["response"]))`: `ValueError` on
an empty sequence; keys are computed in iteration order, so `len` of a
generator-object response raises `TypeError` at the first element; ties keep
the earlier maximum. -/
def pyMaxByRespLen (answers : List TeamAnswer) : Except PyErr TeamAnswer :=
  match answers with
  | [] => .error (.valueError "max() arg is an empty sequence")
  | a :: rest => do
    let k ← pyLenVal a.response
    pyMaxGo a k rest
where
  pyMaxGo (best : TeamAnswer) (bestKey : Nat) :
      List TeamAnswer → Except PyErr TeamAnswer
    | [] => .ok best
    | a :: rest => do
      let k ← pyLenVal a.response
      if bestKey < k then pyMaxGo a k rest else pyMaxGo best bestKey rest

/-- The outcome of one `AITeam.collaborate` call: its return value or raised
exception, the `(provider, model)` of every `service.generate_completion`
call it issued (fan-out and synthesis), and the final state of the
caller-supplied providers list (which the selection loop mutates in place,
through the alias, even when the call ends by raising). -/
structure CollabOut where
  result : Except PyErr PyVal
  genCalls : List (String × String)
  finalProviders : List String

/-- `AITeam.collaborate` (source lines 1257-1336): resolution, length check,
sequential fan-out (each response is the generator object
`service.generate_completion` returns, unexecuted), synthesizer selection,
and the longest-answer fallback. -/
def collaborateImpl (svc : AIServiceSt) (prompt : String)
    (providers? models? : Option (List String)) (temperature : Rat) : CollabOut :=
  match resolveSelections svc providers? models? with
  | .err e providers => { result := .error e, genCalls := [], finalProviders := providers }
  | .ok providers models =>
    if providers.length != models.length then
      { result := .error (.valueError "Number of providers must match number of models")
        genCalls := [], finalProviders := providers }
    else
      let pairs := providers.zip models
      let answers := pairs.map (fun q =>
        { provider := q.1, model := q.2
          response := svcGenerate svc q.2 prompt temperature (some q.1) false : TeamAnswer })
      let fanCalls := pairs
      let metaPrompt := buildMetaPrompt prompt answers
      match findSynth svc metaProviders with
      | .error e =>
        { result := .error e, genCalls := fanCalls, finalProviders := providers }
      | .ok (some (metaProvider, metaModel)) =>
        { result := .ok (svcGenerate svc metaModel metaPrompt temperature (some metaProvider) false)
          genCalls := fanCalls ++ [(metaProvider, metaModel)]
          finalProviders := providers }
      | .ok none =>
        match pyMaxByRespLen answers with
        | .error e =>
          { result := .error e, genCalls := fanCalls, finalProviders := providers }
        | .ok best =>
          { result := .ok best.response, genCalls := fanCalls, finalProviders := providers }


/-- Whether a streamed event carries `done = true` (an absent `done` field,
as on error events, reads as false via `.get("done", False)`). -/
def isDoneTrue (e : EventJson) : Bool := e.done == some true

/-- The invariant of the streaming contract's provable half: any `done = true`
event is the final event of the sequence (hence there is at most one, and
nothing follows it). -/
def doneOnlyLast : List EventJson → Bool
  | [] => true
  | e :: rest => if isDoneTrue e then rest.isEmpty else doneOnlyLast rest

/-- Number of `done = true` events in a stream. -/
def doneCount (evs : List EventJson) : Nat := (evs.filter isDoneTrue).length

/-- Whether a stream's final event is an error event. -/
def endsInError (evs : List EventJson) : Bool :=
  (evs.getLast?.map (fun e => e.error.isSome)).getD false

/-- The chunk list rendered as events with `done` true exactly on the last
chunk: the reference shape the enumerated slicing loop is proved equal to. -/
def emitMarkedLast (modelName : String) : List String → List EventJson
  | [] => []
  | [c] => [{ model := some modelName, response := some c, done := some true }]
  | c :: rest@(_ :: _) =>
    { model := some modelName, response := some c, done := some false }
      :: emitMarkedLast modelName rest

/-- A demonstration config auditor, standing in for the injected external
`config_analyzer` module (out of the core's scope per the spec). -/
def demoAnalyzer : String → Option String → String :=
  fun configText _ => "analysis of: " ++ configText

/-- An inert provider generate behavior, used in registries where only
connectivity and the model listing matter for the claim. -/
def stubGenerate : String → String → Rat → Bool → PyVal := fun _ _ _ _ => .gen [] .pyNone

/-- One Ollama call environment: the non-streaming POST succeeds with answer
text `hello`, the streaming POST would deliver no lines. -/
def ollamaEnvOk : OllamaEnv := ⟨.resp 200 (.ok "hello"), .resp 200 []⟩

/-- Gateway whose registry holds a reachable Ollama provider wired to
`ollamaEnvOk`. -/
def svcReachable : AIServiceSt :=
  ⟨true, "ollama",
    [("ollama", ⟨true, [⟨"llama3", ""⟩],
      fun model prompt t stream => ollamaGenerate model prompt t stream ollamaEnvOk⟩)],
    demoAnalyzer⟩

/-- Gateway with fallback enabled and an unreachable Ollama provider. -/
def svcUnreachFb : AIServiceSt :=
  ⟨true, "ollama", [("ollama", ⟨false, [], stubGenerate⟩)], demoAnalyzer⟩

/-- Gateway with fallback disabled and an unreachable Ollama provider. -/
def svcUnreachNoFb : AIServiceSt :=
  ⟨false, "ollama", [("ollama", ⟨false, [], stubGenerate⟩)], demoAnalyzer⟩

/-- Registry for the selection-loop counterexample: providers `a` and `b`
reachable, both with empty model listings, fallback disabled (so
`AIService.list_models` reports the empty listings as such). -/
def svcSelBothEmpty : AIServiceSt :=
  ⟨false, "a", [("a", ⟨true, [], stubGenerate⟩), ("b", ⟨true, [], stubGenerate⟩)],
    demoAnalyzer⟩

/-- Registry for the in-place-mutation claim: provider `a` has an empty model
listing, `b` has one model, fallback disabled. -/
def svcSelOneEmpty : AIServiceSt :=
  ⟨false, "a", [("a", ⟨true, [], stubGenerate⟩), ("b", ⟨true, [⟨"m1", ""⟩], stubGenerate⟩)],
    demoAnalyzer⟩

/-- Registry with a single provider whose model listing is empty, fallback
disabled. -/
def svcSelSingleEmpty : AIServiceSt :=
  ⟨false, "a", [("a", ⟨true, [], stubGenerate⟩)], demoAnalyzer⟩

/-- An OpenAI streaming call whose connection succeeds but delivers no lines
at all (the server closes without ever sending `data: [DONE]`). -/
def openaiEnvNoLines : OpenAIEnv := ⟨.resp 200 (.ok ""), .resp 200 []⟩

/-- A 51-character response text. -/
def s51 : String := ⟨List.replicate 51 'a'⟩

/-- The chunking the claim asserts, word for word: chunk size
`max 5 ⌈len/10⌉` (ceiling division) instead of the source's
`max(5, len // 10)` (floor division); otherwise identical to the source's
emitting loop. -/
def fallbackStreamSpecCeil (response : String) : List EventJson :=
  let cs := max 5 ((response.length + 9) / 10)
  let chunks := chunksOfStr cs response
  chunks.enum.map (fun p =>
    { model := some "fallback", response := some p.2,
      done := some (p.1 == chunks.length - 1) })



theorem doneOnlyLast_count_le_one :
    ∀ evs : List EventJson, doneOnlyLast evs = true → doneCount evs ≤ 1 := by
  intro evs
  induction evs with
  | nil => intro; simp [doneCount]
  | cons e rest ih =>
    intro h
    unfold doneOnlyLast at h
    by_cases he : isDoneTrue e
    · simp only [he, if_pos] at h
      have : rest = [] := List.isEmpty_iff.mp h
      subst this
      simp [doneCount, List.filter, he]
    · simp only [he] at h
      have := ih (by simpa using h)
      simpa [doneCount, List.filter, he] using this

theorem ollamaStreamLoop_doneOnlyLast :
    ∀ ls, doneOnlyLast (ollamaStreamLoop ls) = true := by
  intro ls
  induction ls with
  | nil => rfl
  | cons l rest ih =>
    cases l with
    | empty => simpa [ollamaStreamLoop] using ih
    | bad => simpa [ollamaStreamLoop, doneOnlyLast, isDoneTrue] using ih
    | iterFail msg => simp [ollamaStreamLoop, doneOnlyLast, isDoneTrue]
    | chunk c =>
      cases hd : c.done with
      | none => simpa [ollamaStreamLoop, hd, doneOnlyLast, isDoneTrue] using ih
      | some b =>
        cases b with
        | false => simpa [ollamaStreamLoop, hd, doneOnlyLast, isDoneTrue] using ih
        | true => simp [ollamaStreamLoop, hd, doneOnlyLast, isDoneTrue]

theorem openaiStreamLoop_doneOnlyLast :
    ∀ model ls, doneOnlyLast (openaiStreamLoop model ls) = true := by
  intro model ls
  induction ls with
  | nil => rfl
  | cons l rest ih =>
    cases l with
    | empty => simpa [openaiStreamLoop] using ih
    | noData => simpa [openaiStreamLoop] using ih
    | doneMark => simp [openaiStreamLoop, doneOnlyLast, isDoneTrue]
    | bad msg => simpa [openaiStreamLoop, doneOnlyLast, isDoneTrue] using ih
    | iterFail msg => simp [openaiStreamLoop, doneOnlyLast, isDoneTrue]
    | delta content =>
      cases content with
      | none => simpa [openaiStreamLoop] using ih
      | some t => simpa [openaiStreamLoop, doneOnlyLast, isDoneTrue] using ih

theorem anthropicStreamLoop_doneOnlyLast :
    ∀ model ls, doneOnlyLast (anthropicStreamLoop model ls) = true := by
  intro model ls
  induction ls with
  | nil => rfl
  | cons l rest ih =>
    cases l with
    | empty => simpa [anthropicStreamLoop] using ih
    | noData => simpa [anthropicStreamLoop] using ih
    | doneMark => simp [anthropicStreamLoop, doneOnlyLast, isDoneTrue]
    | bad msg => simpa [anthropicStreamLoop, doneOnlyLast, isDoneTrue] using ih
    | iterFail msg => simp [anthropicStreamLoop, doneOnlyLast, isDoneTrue]
    | payload content messageStop =>
      cases content with
      | none =>
        cases messageStop with
        | false => simpa [anthropicStreamLoop] using ih
        | true => simp [anthropicStreamLoop, doneOnlyLast, isDoneTrue]
      | some t =>
        cases messageStop with
        | false => simpa [anthropicStreamLoop, doneOnlyLast, isDoneTrue] using ih
        | true => simp [anthropicStreamLoop, doneOnlyLast, isDoneTrue]

theorem geminiStreamLoop_doneOnlyLast :
    ∀ model ls, doneOnlyLast (geminiStreamLoop model ls) = true := by
  intro model ls
  induction ls with
  | nil => rfl
  | cons l rest ih =>
    cases l with
    | empty => simpa [geminiStreamLoop] using ih
    | noData => simpa [geminiStreamLoop] using ih
    | doneMark => simp [geminiStreamLoop, doneOnlyLast, isDoneTrue]
    | bad msg => simpa [geminiStreamLoop, doneOnlyLast, isDoneTrue] using ih
    | iterFail msg => simp [geminiStreamLoop, doneOnlyLast, isDoneTrue]
    | payload text =>
      cases text with
      | none => simpa [geminiStreamLoop] using ih
      | some t => simpa [geminiStreamLoop, doneOnlyLast, isDoneTrue] using ih

theorem azureStreamLoop_doneOnlyLast :
    ∀ model ls, doneOnlyLast (azureStreamLoop model ls) = true := by
  intro model ls
  induction ls with
  | nil => rfl
  | cons l rest ih =>
    cases l with
    | empty => simpa [azureStreamLoop] using ih
    | noData => simpa [azureStreamLoop] using ih
    | doneMark => simp [azureStreamLoop, doneOnlyLast, isDoneTrue]
    | bad msg => simpa [azureStreamLoop, doneOnlyLast, isDoneTrue] using ih
    | iterFail msg => simp [azureStreamLoop, doneOnlyLast, isDoneTrue]
    | payload content =>
      cases content with
      | none => simpa [azureStreamLoop] using ih
      | some t => simpa [azureStreamLoop, doneOnlyLast, isDoneTrue] using ih

theorem markEnum_eq_emitMarkedLast (modelName : String) (n : Nat) :
    ∀ (k : Nat) (chunks : List String), k + chunks.length = n →
      (List.enumFrom k chunks).map (fun p =>
          { model := some modelName, response := some p.2,
            done := some (p.1 == n - 1) : EventJson })
        = emitMarkedLast modelName chunks := by
  intro k chunks
  induction chunks generalizing k with
  | nil => intro _; simp [List.enumFrom, emitMarkedLast]
  | cons c rest ih =>
    intro h
    cases rest with
    | nil =>
      have hk : (k == n - 1) = true := by
        simp only [List.length] at h
        simp [Nat.beq_eq_true_eq]
        omega
      simp [List.enumFrom, emitMarkedLast, hk]
    | cons c2 rest2 =>
      have hk : (k == n - 1) = false := by
        simp only [List.length] at h
        simp [Nat.beq_eq_true_eq]
        omega
      have := ih (k + 1) (by simp only [List.length] at h ⊢; omega)
      simp only [List.enumFrom, List.map, emitMarkedLast, hk]
      exact congrArg _ this

theorem chunkEvents_eq_emitMarkedLast (modelName response : String) :
    chunkEvents modelName response
      = emitMarkedLast modelName (chunksOfStr (max 5 (response.length / 10)) response) := by
  dsimp only [chunkEvents]
  rw [List.enum_eq_enumFrom]
  exact markEnum_eq_emitMarkedLast modelName _ 0 _ (by simp)

theorem emitMarkedLast_doneOnlyLast (modelName : String) :
    ∀ chunks, doneOnlyLast (emitMarkedLast modelName chunks) = true := by
  intro chunks
  induction chunks with
  | nil => simp [emitMarkedLast, doneOnlyLast]
  | cons c rest ih =>
    cases rest with
    | nil => simp [emitMarkedLast, doneOnlyLast, isDoneTrue]
    | cons c2 rest2 =>
      simpa [emitMarkedLast, doneOnlyLast, isDoneTrue] using ih

theorem chunkEvents_doneOnlyLast (modelName response : String) :
    doneOnlyLast (chunkEvents modelName response) = true := by
  rw [chunkEvents_eq_emitMarkedLast]
  exact emitMarkedLast_doneOnlyLast modelName _


theorem ollamaGenerate_doneOnlyLast (model prompt : String) (t : Rat) (env : OllamaEnv) :
    doneOnlyLast (ollamaGenerate model prompt t true env).yieldedEvents = true := by
  obtain ⟨plain, sh⟩ := env
  cases sh with
  | exn msg => simp [ollamaGenerate, ollamaGenerateBody, PyVal.yieldedEvents, doneOnlyLast, isDoneTrue]
  | resp status lines =>
    by_cases hs : (status == 200) = true
    · simpa [ollamaGenerate, ollamaGenerateBody, PyVal.yieldedEvents, hs] using
        ollamaStreamLoop_doneOnlyLast lines
    · simp only [Bool.not_eq_true] at hs
      simp [ollamaGenerate, ollamaGenerateBody, PyVal.yieldedEvents, hs, doneOnlyLast, isDoneTrue]

theorem openaiGenerate_doneOnlyLast (apiKey : Option String) (model prompt : String)
    (t : Rat) (env : OpenAIEnv) :
    doneOnlyLast (openaiGenerate apiKey model prompt t true env).yieldedEvents = true := by
  obtain ⟨plain, sh⟩ := env
  by_cases hk : pyTruthyStr apiKey
  · cases sh with
    | exn msg => simp [openaiGenerate, openaiGenerateBody, hk, PyVal.yieldedEvents, doneOnlyLast, isDoneTrue]
    | resp status lines =>
      by_cases hs : (status == 200) = true
      · simpa [openaiGenerate, openaiGenerateBody, hk, PyVal.yieldedEvents, hs] using
          openaiStreamLoop_doneOnlyLast model lines
      · simp only [Bool.not_eq_true] at hs
        simp [openaiGenerate, openaiGenerateBody, hk, PyVal.yieldedEvents, hs, doneOnlyLast, isDoneTrue]
  · simp only [Bool.not_eq_true] at hk
    simp [openaiGenerate, openaiGenerateBody, hk, PyVal.yieldedEvents, doneOnlyLast, isDoneTrue]

theorem anthropicGenerate_doneOnlyLast (apiKey : Option String) (model prompt : String)
    (t : Rat) (env : AnthropicEnv) :
    doneOnlyLast (anthropicGenerate apiKey model prompt t true env).yieldedEvents = true := by
  obtain ⟨plain, sh⟩ := env
  by_cases hk : pyTruthyStr apiKey
  · cases sh with
    | exn msg => simp [anthropicGenerate, anthropicGenerateBody, hk, PyVal.yieldedEvents, doneOnlyLast, isDoneTrue]
    | resp status lines =>
      by_cases hs : (status == 200) = true
      · simpa [anthropicGenerate, anthropicGenerateBody, hk, PyVal.yieldedEvents, hs] using
          anthropicStreamLoop_doneOnlyLast model lines
      · simp only [Bool.not_eq_true] at hs
        simp [anthropicGenerate, anthropicGenerateBody, hk, PyVal.yieldedEvents, hs, doneOnlyLast, isDoneTrue]
  · simp only [Bool.not_eq_true] at hk
    simp [anthropicGenerate, anthropicGenerateBody, hk, PyVal.yieldedEvents, doneOnlyLast, isDoneTrue]

theorem geminiGenerate_doneOnlyLast (apiKey : Option String) (model prompt : String)
    (t : Rat) (env : GeminiEnv) :
    doneOnlyLast (geminiGenerate apiKey model prompt t true env).yieldedEvents = true := by
  obtain ⟨plain, sh⟩ := env
  by_cases hk : pyTruthyStr apiKey
  · cases sh with
    | exn msg => simp [geminiGenerate, geminiGenerateBody, hk, PyVal.yieldedEvents, doneOnlyLast, isDoneTrue]
    | resp status lines =>
      by_cases hs : (status == 200) = true
      · simpa [geminiGenerate, geminiGenerateBody, hk, PyVal.yieldedEvents, hs] using
          geminiStreamLoop_doneOnlyLast model lines
      · simp only [Bool.not_eq_true] at hs
        simp [geminiGenerate, geminiGenerateBody, hk, PyVal.yieldedEvents, hs, doneOnlyLast, isDoneTrue]
  · simp only [Bool.not_eq_true] at hk
    simp [geminiGenerate, geminiGenerateBody, hk, PyVal.yieldedEvents, doneOnlyLast, isDoneTrue]

theorem azureGenerate_doneOnlyLast (apiKey endpoint : Option String) (model prompt : String)
    (t : Rat) (env : AzureEnv) :
    doneOnlyLast (azureGenerate apiKey endpoint model prompt t true env).yieldedEvents = true := by
  obtain ⟨plain, sh⟩ := env
  by_cases hk : (!pyTruthyStr apiKey || !pyTruthyStr endpoint) = true
  · simp [azureGenerate, azureGenerateBody, hk, PyVal.yieldedEvents, doneOnlyLast, isDoneTrue]
  · cases sh with
    | exn msg => simp [azureGenerate, azureGenerateBody, hk, PyVal.yieldedEvents, doneOnlyLast, isDoneTrue]
    | resp status lines =>
      by_cases hs : (status == 200) = true
      · simpa [azureGenerate, azureGenerateBody, hk, PyVal.yieldedEvents, hs] using
          azureStreamLoop_doneOnlyLast model lines
      · simp only [Bool.not_eq_true] at hs
        simp [azureGenerate, azureGenerateBody, hk, PyVal.yieldedEvents, hs, doneOnlyLast, isDoneTrue]

theorem hfGenerate_doneOnlyLast (apiKey : Option String) (model prompt : String)
    (t : Rat) (env : HFEnv) :
    doneOnlyLast (hfGenerate apiKey model prompt t true env).yieldedEvents = true := by
  obtain ⟨h⟩ := env
  by_cases hk : pyTruthyStr apiKey
  · cases h with
    | exn msg => simp [hfGenerate, hfGenerateBody, hk, PyVal.yieldedEvents, doneOnlyLast, isDoneTrue]
    | resp status body =>
      by_cases hs : (status != 200) = true
      · simp [hfGenerate, hfGenerateBody, hk, PyVal.yieldedEvents, hs, doneOnlyLast, isDoneTrue]
      · cases body with
        | malformed msg =>
          simp [hfGenerate, hfGenerateBody, hk, PyVal.yieldedEvents, hs, doneOnlyLast, isDoneTrue]
        | ok text =>
          simpa [hfGenerate, hfGenerateBody, hk, PyVal.yieldedEvents, hs] using
            chunkEvents_doneOnlyLast model text
  · simp only [Bool.not_eq_true] at hk
    simp [hfGenerate, hfGenerateBody, hk, PyVal.yieldedEvents, doneOnlyLast, isDoneTrue]

theorem fallbackGenerate_doneOnlyLast (analyzer : Option (String → Option String → String))
    (model prompt : String) (t : Rat) :
    doneOnlyLast (fallbackGenerate analyzer model prompt t true).yieldedEvents = true := by
  simpa [fallbackGenerate, fallbackStream, PyVal.yieldedEvents] using
    chunkEvents_doneOnlyLast "fallback" (getFallbackResponse analyzer prompt)

theorem svcGenerate_doneOnlyLast (svc : AIServiceSt) (model prompt : String) (t : Rat)
    (provider? : Option String) :
    doneOnlyLast (svcGenerate svc model prompt t provider? true).yieldedEvents = true := by
  unfold svcGenerate svcGenerateBody
  cases h : (svcDict svc).lookup (svcResolveName svc provider?) with
  | none => simp [h, PyVal.yieldedEvents, doneOnlyLast]
  | some prov =>
    by_cases hc : prov.checkConn
    · simp [h, hc, PyVal.yieldedEvents, doneOnlyLast]
    · by_cases hf : svc.useFallback
      · simp [h, hc, hf, PyVal.yieldedEvents, doneOnlyLast]
      · simp [h, hc, hf, PyVal.yieldedEvents, doneOnlyLast, isDoneTrue]




theorem chunksGo_nil (cs : Nat) : ∀ fuel, chunksGo cs fuel [] = [] := by
  intro fuel
  cases fuel <;> rfl

theorem chunksGo_ne_nil (cs : Nat) :
    ∀ fuel (l : List Char), l ≠ [] → l.length ≤ fuel → chunksGo cs fuel l ≠ [] := by
  intro fuel l hne hl
  cases fuel with
  | zero =>
    have : l = [] := List.length_eq_zero.mp (Nat.le_zero.mp hl)
    exact absurd this hne
  | succ fuel =>
    cases l with
    | nil => exact absurd rfl hne
    | cons x xs => simp [chunksGo]

theorem chunksGo_flatten (cs : Nat) (hcs : 0 < cs) :
    ∀ fuel (l : List Char), l.length ≤ fuel → (chunksGo cs fuel l).flatten = l := by
  intro fuel
  induction fuel with
  | zero =>
    intro l hl
    have : l = [] := List.length_eq_zero.mp (Nat.le_zero.mp hl)
    subst this
    rfl
  | succ fuel ih =>
    intro l hl
    cases l with
    | nil => rfl
    | cons x xs =>
      have hdrop : (List.drop cs (x :: xs)).length ≤ fuel := by
        simp only [List.length_drop, List.length_cons] at hl ⊢
        omega
      calc (chunksGo cs (fuel + 1) (x :: xs)).flatten
          = List.take cs (x :: xs) ++ (chunksGo cs fuel (List.drop cs (x :: xs))).flatten := rfl
        _ = List.take cs (x :: xs) ++ List.drop cs (x :: xs) := by rw [ih _ hdrop]
        _ = x :: xs := List.take_append_drop cs (x :: xs)

theorem chunksGo_all_sized (cs : Nat) (hcs : 0 < cs) :
    ∀ fuel (l : List Char), l.length ≤ fuel →
      ((chunksGo cs fuel l).all
        (fun c => decide (0 < c.length) && decide (c.length ≤ cs))) = true := by
  intro fuel
  induction fuel with
  | zero =>
    intro l hl
    have : l = [] := List.length_eq_zero.mp (Nat.le_zero.mp hl)
    subst this
    rfl
  | succ fuel ih =>
    intro l hl
    cases l with
    | nil => rfl
    | cons x xs =>
      have hdrop : (List.drop cs (x :: xs)).length ≤ fuel := by
        simp only [List.length_drop, List.length_cons] at hl ⊢
        omega
      have htail := ih _ hdrop
      have hstep : chunksGo cs (fuel + 1) (x :: xs)
          = List.take cs (x :: xs) :: chunksGo cs fuel (List.drop cs (x :: xs)) := rfl
      rw [hstep, List.all_cons, htail, Bool.and_true]
      simp only [List.length_take, List.length_cons]
      simp only [Bool.and_eq_true, decide_eq_true_eq]
      omega

theorem chunksGo_dropLast_full (cs : Nat) (hcs : 0 < cs) :
    ∀ fuel (l : List Char), l.length ≤ fuel →
      ((chunksGo cs fuel l).dropLast.all (fun c => c.length == cs)) = true := by
  intro fuel
  induction fuel with
  | zero =>
    intro l hl
    have : l = [] := List.length_eq_zero.mp (Nat.le_zero.mp hl)
    subst this
    rfl
  | succ fuel ih =>
    intro l hl
    cases l with
    | nil => rfl
    | cons x xs =>
      have hstep : chunksGo cs (fuel + 1) (x :: xs)
          = List.take cs (x :: xs) :: chunksGo cs fuel (List.drop cs (x :: xs)) := rfl
      by_cases hle : (x :: xs).length ≤ cs
      · have hdropnil : List.drop cs (x :: xs) = [] := List.drop_eq_nil_of_le hle
        rw [hstep, hdropnil, chunksGo_nil]
        rfl
      · have hdrop : (List.drop cs (x :: xs)).length ≤ fuel := by
          simp only [List.length_drop, List.length_cons] at hl ⊢
          omega
        have hdropne : List.drop cs (x :: xs) ≠ [] := by
          simp only [ne_eq, List.drop_eq_nil_iff]
          omega
        have htailne := chunksGo_ne_nil cs fuel _ hdropne hdrop
        rw [hstep, List.dropLast_cons_of_ne_nil htailne, List.all_cons, ih _ hdrop,
          Bool.and_true]
        simp only [List.length_take, List.length_cons, beq_iff_eq]
        simp only [List.length_cons, not_le] at hle
        omega


theorem all_map_general {α β : Type} (f : α → β) (l : List α) (p : β → Bool) :
    (l.map f).all p = l.all (fun a => p (f a)) := by
  induction l with
  | nil => rfl
  | cons x xs ih => simp [List.all_cons, ih]

theorem selectModelsGo_removed_empty (svc : AIServiceSt) :
    ∀ (fuel i : Nat) (providers models providers1 models1 : List String),
      selectModelsGo svc fuel i providers models = .ok providers1 models1 →
      ∀ p, p ∈ providers → p ∉ providers1 → svcListModels svc (some p) = .ok [] := by
  intro fuel
  induction fuel with
  | zero =>
    intro i providers models providers1 models1 h p hp hnp
    simp only [selectModelsGo, SelResult.ok.injEq] at h
    obtain ⟨h1, _⟩ := h
    subst h1
    exact absurd hp hnp
  | succ fuel ih =>
    intro i providers models providers1 models1 h p hp hnp
    simp only [selectModelsGo] at h
    split at h
    · split at h
      · exact absurd h (by simp)
      · rename_i hlt _ heq
        by_cases hpx : p = providers.get ⟨i, hlt⟩
        · subst hpx
          exact heq
        · have hpmem : p ∈ providers.erase (providers.get ⟨i, hlt⟩) :=
            (List.mem_erase_of_ne hpx).mpr hp
          exact ih (i + 1) _ models providers1 models1 h p hpmem hnp
      · exact ih (i + 1) providers _ providers1 models1 h p hp hnp
    · simp only [SelResult.ok.injEq] at h
      obtain ⟨h1, _⟩ := h
      subst h1
      exact absurd hp hnp

/-- C1: the claim states that every provider's and the Gateway's
`generateCompletion` with `stream=false` returns a string (the answer text,
an empty string, or an `"Error: ..."` string).  In the code this is false
everywhere except the Fallback provider: `AIService.generate_completion` and
all six vendor `generate_completion` methods contain `yield`, so Python makes
them generator functions and every call returns a generator object — the
`return`ed strings exist only as the hidden `StopIteration` value.  This
theorem evaluates the embedded code: every Gateway call and every vendor call
is a generator object (`isStr = false`), concretely a reachable Ollama round
trip produces the doubly-nested generator `gen [] (gen [] (str "hello"))`
rather than `"hello"`, while the Fallback provider alone returns a string. -/
theorem C1_nonstream_call_returns_generator_not_string :
    (∀ svc model prompt t provider? stream,
        (svcGenerate svc model prompt t provider? stream).isStr = false)
    ∧ (∀ model prompt t stream env, (ollamaGenerate model prompt t stream env).isStr = false)
    ∧ (∀ key model prompt t stream env,
        (openaiGenerate key model prompt t stream env).isStr = false)
    ∧ (∀ key model prompt t stream env,
        (anthropicGenerate key model prompt t stream env).isStr = false)
    ∧ (∀ key model prompt t stream env,
        (geminiGenerate key model prompt t stream env).isStr = false)
    ∧ (∀ key ep model prompt t stream env,
        (azureGenerate key ep model prompt t stream env).isStr = false)
    ∧ (∀ key model prompt t stream env, (hfGenerate key model prompt t stream env).isStr = false)
    ∧ svcGenerate svcReachable "llama3" "hi" (7/10) (some "ollama") false
        = .gen [] (.gen [] (.str "hello"))
    ∧ (∀ analyzer model prompt t,
        (fallbackGenerate analyzer model prompt t false).isStr = true) :=
  ⟨fun _ _ _ _ _ _ => rfl, fun _ _ _ _ _ => rfl, fun _ _ _ _ _ _ => rfl,
    fun _ _ _ _ _ _ => rfl, fun _ _ _ _ _ _ => rfl, fun _ _ _ _ _ _ _ => rfl,
    fun _ _ _ _ _ _ => rfl, rfl, fun _ _ _ _ => rfl⟩

/-- C2 (amended): for every provider's streaming path, over every network
environment, the produced event sequence contains at most one `done = true`
event and no event after it (`doneOnlyLast`; `doneOnlyLast_count_le_one`
gives the count bound).  The claim's other guarantee — exactly one
`done = true` event or termination by an error event — fails (see the
counterexample), so only this half is asserted. -/
theorem C2_at_most_one_done_and_none_after :
    (∀ ls, doneCount (ollamaStreamLoop ls) ≤ 1 ∧ doneOnlyLast (ollamaStreamLoop ls) = true)
    ∧ (∀ model ls, doneCount (openaiStreamLoop model ls) ≤ 1
        ∧ doneOnlyLast (openaiStreamLoop model ls) = true)
    ∧ (∀ model ls, doneCount (anthropicStreamLoop model ls) ≤ 1
        ∧ doneOnlyLast (anthropicStreamLoop model ls) = true)
    ∧ (∀ model ls, doneCount (geminiStreamLoop model ls) ≤ 1
        ∧ doneOnlyLast (geminiStreamLoop model ls) = true)
    ∧ (∀ model ls, doneCount (azureStreamLoop model ls) ≤ 1
        ∧ doneOnlyLast (azureStreamLoop model ls) = true)
    ∧ (∀ model prompt t env,
        doneCount (ollamaGenerate model prompt t true env).yieldedEvents ≤ 1
        ∧ doneOnlyLast (ollamaGenerate model prompt t true env).yieldedEvents = true)
    ∧ (∀ key model prompt t env,
        doneCount (openaiGenerate key model prompt t true env).yieldedEvents ≤ 1
        ∧ doneOnlyLast (openaiGenerate key model prompt t true env).yieldedEvents = true)
    ∧ (∀ key model prompt t env,
        doneCount (anthropicGenerate key model prompt t true env).yieldedEvents ≤ 1
        ∧ doneOnlyLast (anthropicGenerate key model prompt t true env).yieldedEvents = true)
    ∧ (∀ key model prompt t env,
        doneCount (geminiGenerate key model prompt t true env).yieldedEvents ≤ 1
        ∧ doneOnlyLast (geminiGenerate key model prompt t true env).yieldedEvents = true)
    ∧ (∀ key ep model prompt t env,
        doneCount (azureGenerate key ep model prompt t true env).yieldedEvents ≤ 1
        ∧ doneOnlyLast (azureGenerate key ep model prompt t true env).yieldedEvents = true)
    ∧ (∀ key model prompt t env,
        doneCount (hfGenerate key model prompt t true env).yieldedEvents ≤ 1
        ∧ doneOnlyLast (hfGenerate key model prompt t true env).yieldedEvents = true)
    ∧ (∀ analyzer model prompt t,
        doneCount (fallbackGenerate analyzer model prompt t true).yieldedEvents ≤ 1
        ∧ doneOnlyLast (fallbackGenerate analyzer model prompt t true).yieldedEvents = true)
    ∧ (∀ svc model prompt t provider?,
        doneCount (svcGenerate svc model prompt t provider? true).yieldedEvents ≤ 1
        ∧ doneOnlyLast (svcGenerate svc model prompt t provider? true).yieldedEvents = true) :=
  ⟨fun ls =>
      ⟨doneOnlyLast_count_le_one _ (ollamaStreamLoop_doneOnlyLast ls),
        ollamaStreamLoop_doneOnlyLast ls⟩,
    fun model ls =>
      ⟨doneOnlyLast_count_le_one _ (openaiStreamLoop_doneOnlyLast model ls),
        openaiStreamLoop_doneOnlyLast model ls⟩,
    fun model ls =>
      ⟨doneOnlyLast_count_le_one _ (anthropicStreamLoop_doneOnlyLast model ls),
        anthropicStreamLoop_doneOnlyLast model ls⟩,
    fun model ls =>
      ⟨doneOnlyLast_count_le_one _ (geminiStreamLoop_doneOnlyLast model ls),
        geminiStreamLoop_doneOnlyLast model ls⟩,
    fun model ls =>
      ⟨doneOnlyLast_count_le_one _ (azureStreamLoop_doneOnlyLast model ls),
        azureStreamLoop_doneOnlyLast model ls⟩,
    fun model prompt t env =>
      ⟨doneOnlyLast_count_le_one _ (ollamaGenerate_doneOnlyLast model prompt t env),
        ollamaGenerate_doneOnlyLast model prompt t env⟩,
    fun key model prompt t env =>
      ⟨doneOnlyLast_count_le_one _ (openaiGenerate_doneOnlyLast key model prompt t env),
        openaiGenerate_doneOnlyLast key model prompt t env⟩,
    fun key model prompt t env =>
      ⟨doneOnlyLast_count_le_one _ (anthropicGenerate_doneOnlyLast key model prompt t env),
        anthropicGenerate_doneOnlyLast key model prompt t env⟩,
    fun key model prompt t env =>
      ⟨doneOnlyLast_count_le_one _ (geminiGenerate_doneOnlyLast key model prompt t env),
        geminiGenerate_doneOnlyLast key model prompt t env⟩,
    fun key ep model prompt t env =>
      ⟨doneOnlyLast_count_le_one _ (azureGenerate_doneOnlyLast key ep model prompt t env),
        azureGenerate_doneOnlyLast key ep model prompt t env⟩,
    fun key model prompt t env =>
      ⟨doneOnlyLast_count_le_one _ (hfGenerate_doneOnlyLast key model prompt t env),
        hfGenerate_doneOnlyLast key model prompt t env⟩,
    fun analyzer model prompt t =>
      ⟨doneOnlyLast_count_le_one _ (fallbackGenerate_doneOnlyLast analyzer model prompt t),
        fallbackGenerate_doneOnlyLast analyzer model prompt t⟩,
    fun svc model prompt t provider? =>
      ⟨doneOnlyLast_count_le_one _ (svcGenerate_doneOnlyLast svc model prompt t provider?),
        svcGenerate_doneOnlyLast svc model prompt t provider?⟩⟩

/-- C2 (counterexample): an OpenAI streaming request whose connection succeeds
but whose line stream ends without ever carrying `data: [DONE]` produces an
empty event sequence — it contains no `done = true` event and does not
terminate with an error event, refuting the claim's "exactly one done=true or
error termination" guarantee. -/
theorem C2_counterexample :
    (openaiGenerate (some "k") "gpt-4" "hi" (7/10) true openaiEnvNoLines).yieldedEvents = []
    ∧ doneCount (openaiGenerate (some "k") "gpt-4" "hi" (7/10) true openaiEnvNoLines).yieldedEvents ≠ 1
    ∧ endsInError (openaiGenerate (some "k") "gpt-4" "hi" (7/10) true openaiEnvNoLines).yieldedEvents = false :=
  ⟨rfl, by decide, rfl⟩


/-- C3 (amended): in `collaborate` with `modelNames` omitted, every provider
that the selection loop actually drops has an empty `service.list_models`
result, and all dropping happens inside the selection step, before the
length-match check (which `collaborateImpl` applies to the selection's
output).  The original claim's stronger clause — that *every* empty-listing
provider is dropped, leaving no provider unresolved — is false: the in-place
`remove` skips the next list entry (see the counterexample). -/
theorem C3_dropped_providers_have_empty_listing (svc : AIServiceSt)
    (providers providers1 models1 : List String)
    (h : selectModels svc providers = .ok providers1 models1) :
    ∀ p, p ∈ providers → p ∉ providers1 → svcListModels svc (some p) = .ok [] :=
  selectModelsGo_removed_empty svc providers.length 0 providers [] providers1 models1 h

theorem C3_witness :
    selectModels svcSelSingleEmpty ["a"] = .ok [] []
    ∧ svcListModels svcSelSingleEmpty (some "a") = .ok [] :=
  ⟨rfl,
    C3_dropped_providers_have_empty_listing svcSelSingleEmpty ["a"] [] [] rfl "a"
      (by simp) (by simp)⟩

/-- C3 (counterexample): with providers `["a", "b"]` both reachable and both
yielding no models (fallback disabled), the loop removes `a`, the iteration
cursor then skips `b`, and the call ends in the length-mismatch error — `b`
has an empty model listing yet is *not* dropped from the selection set, and
it is left unresolved (present in the providers list, absent from the models
list), refuting the claim. -/
theorem C3_counterexample :
    svcListModels svcSelBothEmpty (some "b") = .ok []
    ∧ (collaborateImpl svcSelBothEmpty "hi" (some ["a", "b"]) none (7/10)).finalProviders = ["b"]
    ∧ (collaborateImpl svcSelBothEmpty "hi" (some ["a", "b"]) none (7/10)).result
        = .error (.valueError "Number of providers must match number of models") :=
  ⟨rfl, rfl, rfl⟩

/-- C4 (amended): when the Fallback provider's prompt requests analysis and
references a configuration but neither regex finds a fenced block, the
analysis branch is abandoned without any message and the prompt falls through
to the ordinary topic-keyword dispatch; no fixed instructional message asking
the caller to fence the config exists in this code path. -/
theorem C4_no_fence_falls_through_to_topics
    (analyzer : Option (String → Option String → String)) (prompt : String)
    (h1 : analysisRequested (pyLower prompt) = true)
    (h2 : fenceSearch prompt.toList = none)
    (h3 : tripleQuoteSearch prompt.toList = none) :
    getFallbackResponse analyzer prompt = topicResponse prompt := by
  have h2' : fenceSearch prompt.data = none := h2
  have h3' : tripleQuoteSearch prompt.data = none := h3
  cases analyzer with
  | none => simp [getFallbackResponse, topicResponse, networkResponse]
  | some f => simp [getFallbackResponse, topicResponse, networkResponse, h1, h2', h3']

theorem C4_witness :
    analysisRequested (pyLower "проверь конфигурацию nginx") = true
    ∧ fenceSearch "проверь конфигурацию nginx".toList = none
    ∧ tripleQuoteSearch "проверь конфигурацию nginx".toList = none
    ∧ getFallbackResponse (some demoAnalyzer) "проверь конфигурацию nginx"
        = topicResponse "проверь конфигурацию nginx" :=
  ⟨rfl, rfl, rfl,
    C4_no_fence_falls_through_to_topics (some demoAnalyzer) "проверь конфигурацию nginx"
      rfl rfl rfl⟩

set_option maxRecDepth 4000 in
/-- C4 (counterexample): the prompt asks to check an nginx configuration and
contains no fenced block, yet the Fallback provider's response is just the
generic topic menu — identical to the response for an entirely unrelated
prompt and containing not a single backtick character (code 96), hence no
fence token and no fencing instruction, refuting the claimed fixed
instructional message. -/
theorem C4_counterexample :
    analysisRequested (pyLower "проверь конфигурацию nginx") = true
    ∧ fenceSearch "проверь конфигурацию nginx".toList = none
    ∧ getFallbackResponse (some demoAnalyzer) "проверь конфигурацию nginx" = generalResponseText
    ∧ getFallbackResponse (some demoAnalyzer) "hello there" = generalResponseText
    ∧ (generalResponseText.toList.all (fun ch => ch != Char.ofNat 96)) = true :=
  ⟨rfl, rfl, rfl, rfl, by decide⟩

/-- C5 (amended): `_stream_fallback` splits the response into chunks of size
`max 5 (len / 10)` — *floor* division, where the claim said ceiling — yields
one event per chunk in source order with `done = true` exactly on the last
chunk (the `emitMarkedLast` shape), the chunks concatenate back to the
response, every chunk except possibly the last has exactly the chunk size,
and every chunk is nonempty and at most the chunk size. -/
theorem C5_floor_chunking (r : String) :
    (fallbackStream r).yieldedEvents
        = emitMarkedLast "fallback" (chunksOfStr (max 5 (r.length / 10)) r)
    ∧ ((chunksOfStr (max 5 (r.length / 10)) r).map String.toList).flatten = r.toList
    ∧ ((chunksOfStr (max 5 (r.length / 10)) r).dropLast.all
        (fun c => c.length == max 5 (r.length / 10))) = true
    ∧ ((chunksOfStr (max 5 (r.length / 10)) r).all
        (fun c => decide (0 < c.length) && decide (c.length ≤ max 5 (r.length / 10)))) = true := by
  have hcs : 0 < max 5 (r.length / 10) := by omega
  have hfuel : r.toList.length ≤ r.toList.length := le_refl _
  have hcomp : (String.toList ∘ fun l : List Char => (⟨l⟩ : String)) = id := rfl
  refine ⟨chunkEvents_eq_emitMarkedLast "fallback" r, ?_, ?_, ?_⟩
  · simp only [chunksOfStr]
    rw [List.map_map, hcomp, List.map_id]
    exact chunksGo_flatten _ hcs _ _ hfuel
  · simp only [chunksOfStr]
    rw [← List.map_dropLast, all_map_general]
    exact chunksGo_dropLast_full _ hcs _ _ hfuel
  · simp only [chunksOfStr]
    rw [all_map_general]
    exact chunksGo_all_sized _ hcs _ _ hfuel

/-- C5 (counterexample): on a 51-character response the source's chunk size is
`max(5, 51 // 10) = 5` (eleven events, first chunk of length 5), while the
claimed `max(5, ceil(51/10)) = 6` would give nine events with six-character
chunks; the two event sequences differ, refuting the ceiling-division claim. -/
theorem C5_counterexample :
    (fallbackStream s51).yieldedEvents.length = 11
    ∧ (fallbackStreamSpecCeil s51).length = 9
    ∧ (fallbackStream s51).yieldedEvents ≠ fallbackStreamSpecCeil s51
    ∧ ((fallbackStream s51).yieldedEvents.head?.bind EventJson.response).map String.length
        = some 5
    ∧ max 5 ((s51.length + 9) / 10) = 6 :=
  ⟨rfl, rfl, by decide, rfl, rfl⟩


/-- C6: on a Gateway with fallback enabled and an unreachable resolved
provider, `list_models` does return exactly the Fallback provider's catalogue;
but `generate_completion` does not return the Fallback provider's output for
the same request: being a generator function, the call returns a generator
object whose body yields nothing and merely hides the Fallback result (here a
string) in its `return` value — so the claimed delegation equality fails for
the generate half, a slip against the method's own `Union[str, Generator]`
contract. -/
theorem C6_fallback_delegation_eval :
    svcListModels svcUnreachFb (some "ollama") = .ok fallbackModels
    ∧ svcGenerate svcUnreachFb "llama3" "hello" (7/10) (some "ollama") false
        = .gen [] (fallbackGenerate (some demoAnalyzer) "llama3" "hello" (7/10) false)
    ∧ (fallbackGenerate (some demoAnalyzer) "llama3" "hello" (7/10) false).isStr = true
    ∧ svcGenerate svcUnreachFb "llama3" "hello" (7/10) (some "ollama") false
        ≠ fallbackGenerate (some demoAnalyzer) "llama3" "hello" (7/10) false :=
  ⟨rfl, rfl, rfl, by decide⟩

/-- C7: on a Gateway with fallback disabled and an unreachable resolved
provider, the streaming call's iteration does produce exactly one error event
(and no done event); but the non-streaming call does not produce an error
string: the generator-function call returns a generator object and the
`"Error: ..."` string is only its hidden `return` value, so the claimed
error-string half fails. -/
theorem C7_unavailability_eval :
    svcGenerate svcUnreachNoFb "llama3" "hi" (7/10) (some "ollama") false
      = .gen [] (.str "Error: Provider 'ollama' is not available and fallback is disabled.")
    ∧ (svcGenerate svcUnreachNoFb "llama3" "hi" (7/10) (some "ollama") false).isStr = false
    ∧ (svcGenerate svcUnreachNoFb "llama3" "hi" (7/10) (some "ollama") true).yieldedEvents
      = [{ error := some "Provider 'ollama' is not available and fallback is disabled." }]
    ∧ doneCount (svcGenerate svcUnreachNoFb "llama3" "hi" (7/10) (some "ollama") true).yieldedEvents
      = 0 :=
  ⟨rfl, rfl, rfl, rfl⟩

/-- C8: whenever `collaborate`'s provider/model resolution ends with lists of
different lengths, the call raises the `ValueError` length-mismatch (a fatal
input error) with an empty generation-call trace — no
`service.generate_completion` call (fan-out or synthesis) is ever issued. -/
theorem C8_length_mismatch_raises_before_generation (svc : AIServiceSt) (prompt : String)
    (providers? models? : Option (List String)) (t : Rat)
    (providers1 models1 : List String)
    (h : resolveSelections svc providers? models? = .ok providers1 models1)
    (hne : providers1.length ≠ models1.length) :
    (collaborateImpl svc prompt providers? models? t).result
        = .error (.valueError "Number of providers must match number of models")
    ∧ (collaborateImpl svc prompt providers? models? t).genCalls = []
    ∧ (collaborateImpl svc prompt providers? models? t).finalProviders = providers1 := by
  have hbne : (providers1.length != models1.length) = true := by
    simpa [bne_iff_ne] using hne
  unfold collaborateImpl
  rw [h]
  simp [hbne]

theorem C8_witness :
    resolveSelections svcReachable (some ["a", "b"]) (some ["m1"]) = .ok ["a", "b"] ["m1"]
    ∧ (collaborateImpl svcReachable "hi" (some ["a", "b"]) (some ["m1"]) (7/10)).result
        = .error (.valueError "Number of providers must match number of models")
    ∧ (collaborateImpl svcReachable "hi" (some ["a", "b"]) (some ["m1"]) (7/10)).genCalls = [] :=
  ⟨rfl,
    (C8_length_mismatch_raises_before_generation svcReachable "hi" (some ["a", "b"])
      (some ["m1"]) (7/10) ["a", "b"] ["m1"] rfl (by decide)).1,
    (C8_length_mismatch_raises_before_generation svcReachable "hi" (some ["a", "b"])
      (some ["m1"]) (7/10) ["a", "b"] ["m1"] rfl (by decide)).2.1⟩

/-- C9: with no synthesizer in the priority list registered and reachable
(here: only an unreachable `ollama` plus the fallback, which is not in the
priority list), `collaborate` does not return the longest collected answer's
text: every collected `response` is the generator object that the
generator-function `AIService.generate_completion` returned, so
`max(responses, key=lambda x: len(x["response"]))` raises `TypeError` at its
first element, and the call ends in that error after exactly the one fan-out
generation call. -/
theorem C9_longest_answer_fallback_raises :
    (collaborateImpl svcUnreachFb "hi" none none (7/10)).result
        = .error (.typeError "object has no len()")
    ∧ (collaborateImpl svcUnreachFb "hi" none none (7/10)).genCalls
        = [("fallback", "fallback-unix")]
    ∧ (∀ s : String,
        (collaborateImpl svcUnreachFb "hi" none none (7/10)).result ≠ .ok (.str s)) :=
  ⟨rfl, rfl, fun _ h => Except.noConfusion h⟩

/-- C10: `collaborate` with an explicit providers list, `modelNames` omitted,
and provider `a`'s model listing empty: the selection loop removes `a` from
the caller-supplied list in place, so after the call the caller's own list is
`["b"]`, no longer the `["a", "b"]` that was passed in — the selection step
mutates its argument. -/
theorem C10_caller_list_mutated :
    svcListModels svcSelOneEmpty (some "a") = .ok []
    ∧ (collaborateImpl svcSelOneEmpty "hi" (some ["a", "b"]) none (7/10)).finalProviders = ["b"]
    ∧ (collaborateImpl svcSelOneEmpty "hi" (some ["a", "b"]) none (7/10)).finalProviders
        ≠ ["a", "b"] :=
  ⟨rfl, rfl, by decide⟩

end DevOpsAI
